import Mathlib

/-!
Shallow embedding of `src/core/src/class/trace.rs` from rquickjs: the `Trace`
trait, the `Tracer` visitor, and the macro-generated structural
implementations (`trace_impls!` arms `primitive`, `base`, `ref`, `tup`,
`list`, `map`).

Modelling conventions:
* Pointers (`*mut JSRuntime`, `JSContext` pointers, `JS_VALUE_GET_PTR`) are
  `Nat`.
* A `Value` carries its context, its native pointer and its ref-counted flag
  (the engine's value tagging, read by `qjs::JS_VALUE_HAS_REF_COUNT`, is
  abstracted into the flag).
* The foreign mark callback `qjs::JS_MarkFunc` is `Option<extern fn>` in the
  source; we keep the `Option` (present or absent) and model one invocation
  of the callback as appending one `Report` carrying the arguments it was
  given.  `Option::unwrap` on a missing callback is a fatal abort, modelled
  as the overall result `none`.
* A `Trace` implementation for a type `T` is a function `T → List TraceOp`
  listing, in order, the visitor operations (`tracer.mark` / `tracer.mark_ctx`
  calls) the Rust implementation performs.  Containers are represented by
  their iteration sequence (the order `self.iter()` yields elements).
-/

namespace RQ

/-- An execution-context handle; `ctx.as_ptr()` is the `ptr` field. -/
structure Ctx where
  ptr : Nat
deriving DecidableEq

/-- A managed value: its owning context (`value.ctx()`), its native pointer
(`JS_VALUE_GET_PTR(value.as_js_value())`) and its ref-counted flag. -/
structure Value where
  ctx : Ctx
  ptr : Nat
  has_ref_count : Bool
deriving DecidableEq

/-- Modelled from the spec: `qjs::JS_VALUE_HAS_REF_COUNT` (engine macro, not
in this crate) reads the value's tag; some value kinds (numeric/boolean
immediates) are never ref-counted.  The tag check is abstracted into the
value's flag. -/
def JS_VALUE_HAS_REF_COUNT (v : Value) : Bool :=
  v.has_ref_count

/-- One invocation of the bound mark callback: runtime handle and pointer
arguments it was given. -/
structure Report where
  rt : Nat
  ptr : Nat
deriving DecidableEq

/-- The `Tracer` visitor: runtime handle and the foreign callback
(`qjs::JS_MarkFunc = Option<extern fn>`), kept as presence only.  The
lifetime markers `_inv` and `_marker` have no runtime content and are
omitted. -/
structure Tracer where
  rt : Nat
  mark_func : Option Unit
deriving DecidableEq

/-- `Tracer::mark_ctx`: `(self.mark_func.unwrap())(self.rt, ctx.as_ptr().cast())`.
`unwrap` aborts when the callback is absent (`none`); otherwise the callback
is invoked once with the runtime handle and the context pointer. -/
def Tracer.mark_ctx (t : Tracer) (c : Ctx) : Option (List Report) :=
  match t.mark_func with
  | none => none
  | some _ => some [⟨t.rt, c.ptr⟩]

/-- Modelled from the spec: `qjs::JS_MarkValue` (engine code, not in this
crate) forwards one report to the bound callback with the runtime handle and
the value's native pointer. -/
def JS_MarkValue (rt : Nat) (v : Value) : List Report :=
  [⟨rt, v.ptr⟩]

/-- `Tracer::mark`: first `self.mark_ctx(value.ctx())`, then, if
`JS_VALUE_HAS_REF_COUNT(value)`, `JS_MarkValue(self.rt, value, self.mark_func)`.
An abort in `mark_ctx` propagates. -/
def Tracer.mark (t : Tracer) (v : Value) : Option (List Report) :=
  match t.mark_ctx v.ctx with
  | none => none
  | some r =>
      if JS_VALUE_HAS_REF_COUNT v then some (r ++ JS_MarkValue t.rt v)
      else some r

/-- A visitor operation performed by a `Trace` implementation. -/
inductive TraceOp where
  | markValue : Value → TraceOp
  | markCtx : Ctx → TraceOp
deriving DecidableEq

/-- Run one visitor operation on a concrete tracer. -/
def Tracer.runOp (t : Tracer) : TraceOp → Option (List Report)
  | TraceOp.markValue v => t.mark v
  | TraceOp.markCtx c => t.mark_ctx c

/-- Run a sequence of visitor operations on a concrete tracer, accumulating
the callback invocations; an abort anywhere yields `none`. -/
def Tracer.runOps (t : Tracer) : List TraceOp → Option (List Report)
  | [] => some []
  | op :: rest =>
      match t.runOp op, t.runOps rest with
      | some r, some rs => some (r ++ rs)
      | _, _ => none

/-- `impl Trace for Value`: `tracer.mark(self)`. -/
def Value.trace (v : Value) : List TraceOp :=
  [TraceOp.markValue v]

/-- `impl Trace for Ctx`: `tracer.mark_ctx(self)`. -/
def Ctx.trace (c : Ctx) : List TraceOp :=
  [TraceOp.markCtx c]

/-- `trace_impls!(primitive: ...)`: `fn trace(&self, _tracer) {}`, a no-op.
Instantiated at `u8,u16,u32,u64,usize,i8,i16,i32,i64,isize,f32,f64,bool,char,
String,Atom,Module`; the body is the same for each, so it is given once,
generic in the represented type. -/
def trace_impl_primitive {T : Type} (_x : T) : List TraceOp :=
  []

/-- `crate::Object`; `as_value` is `Object::as_value`. -/
structure Object where
  as_value : Value
deriving DecidableEq

/-- `crate::Array`. -/
structure Array where
  as_value : Value
deriving DecidableEq

/-- `crate::Function`. -/
structure Function where
  as_value : Value
deriving DecidableEq

/-- `crate::BigInt`. -/
structure BigInt where
  as_value : Value
deriving DecidableEq

/-- `crate::Symbol`. -/
structure Symbol where
  as_value : Value
deriving DecidableEq

/-- `crate::Exception`. -/
structure Exception where
  as_value : Value
deriving DecidableEq

/-- `crate::String` (the managed string value, distinct from Rust `String`). -/
structure JSString where
  as_value : Value
deriving DecidableEq

/-- `trace_impls!(base:)` for `Object`: `self.as_value().trace(tracer)`. -/
def Object.trace (o : Object) : List TraceOp :=
  o.as_value.trace

/-- `trace_impls!(base:)` for `Array`. -/
def Array.trace (a : Array) : List TraceOp :=
  a.as_value.trace

/-- `trace_impls!(base:)` for `Function`. -/
def Function.trace (f : Function) : List TraceOp :=
  f.as_value.trace

/-- `trace_impls!(base:)` for `BigInt`. -/
def BigInt.trace (b : BigInt) : List TraceOp :=
  b.as_value.trace

/-- `trace_impls!(base:)` for `Symbol`. -/
def Symbol.trace (s : Symbol) : List TraceOp :=
  s.as_value.trace

/-- `trace_impls!(base:)` for `Exception`. -/
def Exception.trace (e : Exception) : List TraceOp :=
  e.as_value.trace

/-- `trace_impls!(base:)` for `crate::String`. -/
def JSString.trace (s : JSString) : List TraceOp :=
  s.as_value.trace

/-- `Box<T>`: exclusive-owner box. -/
structure Box (T : Type) where
  inner : T
deriving DecidableEq

/-- `std::rc::Rc<T>`: reference-counted shared pointer. -/
structure Rc (T : Type) where
  inner : T
deriving DecidableEq

/-- `std::sync::Arc<T>`: atomically reference-counted shared pointer. -/
structure Arc (T : Type) where
  inner : T
deriving DecidableEq

/-- `trace_impls!(ref:)` for `Box`: `let this: &T = &self; this.trace(tracer)`.
The component trace function stands for `T`'s `Trace` implementation. -/
def Box.trace {T : Type} (f : T → List TraceOp) (b : Box T) : List TraceOp :=
  f b.inner

/-- `trace_impls!(ref:)` for `Rc`. -/
def Rc.trace {T : Type} (f : T → List TraceOp) (r : Rc T) : List TraceOp :=
  f r.inner

/-- `trace_impls!(ref:)` for `Arc`. -/
def Arc.trace {T : Type} (f : T → List TraceOp) (a : Arc T) : List TraceOp :=
  f a.inner

/-- `trace_impls!(list:)`: `for item in self.iter() { item.trace(tracer); }`.
The same body is generated for `Vec`, `VecDeque`, `LinkedList`, `HashSet`,
`BTreeSet` and `IndexSet`; each container is represented by its iteration
sequence, so the one definition covers all six instantiations. -/
def trace_impl_list {T : Type} (f : T → List TraceOp) : List T → List TraceOp
  | [] => []
  | x :: xs => f x ++ trace_impl_list f xs

/-- `trace_impls!(map:)`: `for (key,item) in self.iter() { key.trace(tracer);
item.trace(tracer); }`.  The same body is generated for `HashMap`, `BTreeMap`
and `IndexMap`; each map is represented by its entry iteration sequence. -/
def trace_impl_map {K V : Type} (fk : K → List TraceOp) (fv : V → List TraceOp) :
    List (K × V) → List TraceOp
  | [] => []
  | (k, v) :: rest => fk k ++ fv v ++ trace_impl_map fk fv rest

/-- `trace_impls!(tup:)`, arity 0: `impl Trace for ()`, a no-op body (no
components to trace). -/
def trace_tup0 : Unit → List TraceOp
  | () => []

/-- `trace_impls!(tup:)`, arity 1: `(A,)`, each component trace function
standing for that component type's `Trace` implementation. -/
def trace_tup1 {A : Type} (fA : A → List TraceOp) : A → List TraceOp
  | a => fA a

/-- `trace_impls!(tup:)`, arity 2. -/
def trace_tup2 {A B : Type} (fA : A → List TraceOp) (fB : B → List TraceOp) :
    A × B → List TraceOp
  | (a, b) => fA a ++ fB b

/-- `trace_impls!(tup:)`, arity 3. -/
def trace_tup3 {A B C : Type} (fA : A → List TraceOp) (fB : B → List TraceOp)
    (fC : C → List TraceOp) : A × B × C → List TraceOp
  | (a, b, c) => fA a ++ fB b ++ fC c

/-- `trace_impls!(tup:)`, arity 4. -/
def trace_tup4 {A B C D : Type} (fA : A → List TraceOp) (fB : B → List TraceOp)
    (fC : C → List TraceOp) (fD : D → List TraceOp) : A × B × C × D → List TraceOp
  | (a, b, c, d) => fA a ++ fB b ++ fC c ++ fD d

/-- `trace_impls!(tup:)`, arity 5. -/
def trace_tup5 {A B C D E : Type} (fA : A → List TraceOp) (fB : B → List TraceOp)
    (fC : C → List TraceOp) (fD : D → List TraceOp) (fE : E → List TraceOp) :
    A × B × C × D × E → List TraceOp
  | (a, b, c, d, e) => fA a ++ fB b ++ fC c ++ fD d ++ fE e

/-- `trace_impls!(tup:)`, arity 6. -/
def trace_tup6 {A B C D E F : Type} (fA : A → List TraceOp) (fB : B → List TraceOp)
    (fC : C → List TraceOp) (fD : D → List TraceOp) (fE : E → List TraceOp)
    (fF : F → List TraceOp) : A × B × C × D × E × F → List TraceOp
  | (a, b, c, d, e, f) => fA a ++ fB b ++ fC c ++ fD d ++ fE e ++ fF f

/-- `trace_impls!(tup:)`, arity 7. -/
def trace_tup7 {A B C D E F G : Type} (fA : A → List TraceOp) (fB : B → List TraceOp)
    (fC : C → List TraceOp) (fD : D → List TraceOp) (fE : E → List TraceOp)
    (fF : F → List TraceOp) (fG : G → List TraceOp) :
    A × B × C × D × E × F × G → List TraceOp
  | (a, b, c, d, e, f, g) => fA a ++ fB b ++ fC c ++ fD d ++ fE e ++ fF f ++ fG g

/-- `trace_impls!(tup:)`, arity 8. -/
def trace_tup8 {A B C D E F G H : Type} (fA : A → List TraceOp) (fB : B → List TraceOp)
    (fC : C → List TraceOp) (fD : D → List TraceOp) (fE : E → List TraceOp)
    (fF : F → List TraceOp) (fG : G → List TraceOp) (fH : H → List TraceOp) :
    A × B × C × D × E × F × G × H → List TraceOp
  | (a, b, c, d, e, f, g, h) =>
      fA a ++ fB b ++ fC c ++ fD d ++ fE e ++ fF f ++ fG g ++ fH h

/-- `trace_impls!(tup:)`, arity 9. -/
def trace_tup9 {A B C D E F G H I : Type} (fA : A → List TraceOp) (fB : B → List TraceOp)
    (fC : C → List TraceOp) (fD : D → List TraceOp) (fE : E → List TraceOp)
    (fF : F → List TraceOp) (fG : G → List TraceOp) (fH : H → List TraceOp)
    (fI : I → List TraceOp) : A × B × C × D × E × F × G × H × I → List TraceOp
  | (a, b, c, d, e, f, g, h, i) =>
      fA a ++ fB b ++ fC c ++ fD d ++ fE e ++ fF f ++ fG g ++ fH h ++ fI i

/-- `trace_impls!(tup:)`, arity 10. -/
def trace_tup10 {A B C D E F G H I J : Type} (fA : A → List TraceOp)
    (fB : B → List TraceOp) (fC : C → List TraceOp) (fD : D → List TraceOp)
    (fE : E → List TraceOp) (fF : F → List TraceOp) (fG : G → List TraceOp)
    (fH : H → List TraceOp) (fI : I → List TraceOp) (fJ : J → List TraceOp) :
    A × B × C × D × E × F × G × H × I × J → List TraceOp
  | (a, b, c, d, e, f, g, h, i, j) =>
      fA a ++ fB b ++ fC c ++ fD d ++ fE e ++ fF f ++ fG g ++ fH h ++ fI i ++ fJ j

/-- `trace_impls!(tup:)`, arity 11. -/
def trace_tup11 {A B C D E F G H I J K : Type} (fA : A → List TraceOp)
    (fB : B → List TraceOp) (fC : C → List TraceOp) (fD : D → List TraceOp)
    (fE : E → List TraceOp) (fF : F → List TraceOp) (fG : G → List TraceOp)
    (fH : H → List TraceOp) (fI : I → List TraceOp) (fJ : J → List TraceOp)
    (fK : K → List TraceOp) : A × B × C × D × E × F × G × H × I × J × K → List TraceOp
  | (a, b, c, d, e, f, g, h, i, j, k) =>
      fA a ++ fB b ++ fC c ++ fD d ++ fE e ++ fF f ++ fG g ++ fH h ++ fI i ++
        fJ j ++ fK k

/-- `trace_impls!(tup:)`, arity 12. -/
def trace_tup12 {A B C D E F G H I J K L : Type} (fA : A → List TraceOp)
    (fB : B → List TraceOp) (fC : C → List TraceOp) (fD : D → List TraceOp)
    (fE : E → List TraceOp) (fF : F → List TraceOp) (fG : G → List TraceOp)
    (fH : H → List TraceOp) (fI : I → List TraceOp) (fJ : J → List TraceOp)
    (fK : K → List TraceOp) (fL : L → List TraceOp) :
    A × B × C × D × E × F × G × H × I × J × K × L → List TraceOp
  | (a, b, c, d, e, f, g, h, i, j, k, l) =>
      fA a ++ fB b ++ fC c ++ fD d ++ fE e ++ fF f ++ fG g ++ fH h ++ fI i ++
        fJ j ++ fK k ++ fL l

/-- `trace_impls!(tup:)`, arity 13. -/
def trace_tup13 {A B C D E F G H I J K L M : Type} (fA : A → List TraceOp)
    (fB : B → List TraceOp) (fC : C → List TraceOp) (fD : D → List TraceOp)
    (fE : E → List TraceOp) (fF : F → List TraceOp) (fG : G → List TraceOp)
    (fH : H → List TraceOp) (fI : I → List TraceOp) (fJ : J → List TraceOp)
    (fK : K → List TraceOp) (fL : L → List TraceOp) (fM : M → List TraceOp) :
    A × B × C × D × E × F × G × H × I × J × K × L × M → List TraceOp
  | (a, b, c, d, e, f, g, h, i, j, k, l, m) =>
      fA a ++ fB b ++ fC c ++ fD d ++ fE e ++ fF f ++ fG g ++ fH h ++ fI i ++
        fJ j ++ fK k ++ fL l ++ fM m

/-- `trace_impls!(tup:)`, arity 14. -/
def trace_tup14 {A B C D E F G H I J K L M N : Type} (fA : A → List TraceOp)
    (fB : B → List TraceOp) (fC : C → List TraceOp) (fD : D → List TraceOp)
    (fE : E → List TraceOp) (fF : F → List TraceOp) (fG : G → List TraceOp)
    (fH : H → List TraceOp) (fI : I → List TraceOp) (fJ : J → List TraceOp)
    (fK : K → List TraceOp) (fL : L → List TraceOp) (fM : M → List TraceOp)
    (fN : N → List TraceOp) :
    A × B × C × D × E × F × G × H × I × J × K × L × M × N → List TraceOp
  | (a, b, c, d, e, f, g, h, i, j, k, l, m, n) =>
      fA a ++ fB b ++ fC c ++ fD d ++ fE e ++ fF f ++ fG g ++ fH h ++ fI i ++
        fJ j ++ fK k ++ fL l ++ fM m ++ fN n

/-- `trace_impls!(tup:)`, arity 15. -/
def trace_tup15 {A B C D E F G H I J K L M N O : Type} (fA : A → List TraceOp)
    (fB : B → List TraceOp) (fC : C → List TraceOp) (fD : D → List TraceOp)
    (fE : E → List TraceOp) (fF : F → List TraceOp) (fG : G → List TraceOp)
    (fH : H → List TraceOp) (fI : I → List TraceOp) (fJ : J → List TraceOp)
    (fK : K → List TraceOp) (fL : L → List TraceOp) (fM : M → List TraceOp)
    (fN : N → List TraceOp) (fO : O → List TraceOp) :
    A × B × C × D × E × F × G × H × I × J × K × L × M × N × O → List TraceOp
  | (a, b, c, d, e, f, g, h, i, j, k, l, m, n, o) =>
      fA a ++ fB b ++ fC c ++ fD d ++ fE e ++ fF f ++ fG g ++ fH h ++ fI i ++
        fJ j ++ fK k ++ fL l ++ fM m ++ fN n ++ fO o

/-- `trace_impls!(tup:)`, arity 16. -/
def trace_tup16 {A B C D E F G H I J K L M N O P : Type} (fA : A → List TraceOp)
    (fB : B → List TraceOp) (fC : C → List TraceOp) (fD : D → List TraceOp)
    (fE : E → List TraceOp) (fF : F → List TraceOp) (fG : G → List TraceOp)
    (fH : H → List TraceOp) (fI : I → List TraceOp) (fJ : J → List TraceOp)
    (fK : K → List TraceOp) (fL : L → List TraceOp) (fM : M → List TraceOp)
    (fN : N → List TraceOp) (fO : O → List TraceOp) (fP : P → List TraceOp) :
    A × B × C × D × E × F × G × H × I × J × K × L × M × N × O × P → List TraceOp
  | (a, b, c, d, e, f, g, h, i, j, k, l, m, n, o, p) =>
      fA a ++ fB b ++ fC c ++ fD d ++ fE e ++ fF f ++ fG g ++ fH h ++ fI i ++
        fJ j ++ fK k ++ fL l ++ fM m ++ fN n ++ fO o ++ fP p

/-- C1 counterexample: `report_value` (`Tracer::mark`) on a value that does
not carry a reference count is not a no-op — with runtime handle 77, context
pointer 5 and a callback present, it forwards the context report `(77, 5)`
to the bound callback instead of forwarding nothing. -/
theorem mark_on_non_refcounted_not_noop :
    Tracer.mark ⟨77, some ()⟩ ⟨⟨5⟩, 9, false⟩ = some [⟨77, 5⟩] ∧
    Tracer.mark ⟨77, some ()⟩ ⟨⟨5⟩, 9, false⟩ ≠ some [] := by
  decide

/-- C1 (amended): with a callback present, `Tracer::mark` always first
forwards the context report; a report with the bound runtime handle and the
value's native pointer follows exactly when the value carries a reference
count, and on a non-ref-counted value no value report is forwarded. -/
theorem mark_reports_ctx_then_value_iff_refcounted (t : Tracer) (v : Value)
    (h : t.mark_func.isSome = true) :
    t.mark v = some (⟨t.rt, v.ctx.ptr⟩ ::
      (if JS_VALUE_HAS_REF_COUNT v then [⟨t.rt, v.ptr⟩] else [])) := by
  obtain ⟨rt, mf⟩ := t
  cases mf with
  | none => simp at h
  | some u =>
      cases hv : JS_VALUE_HAS_REF_COUNT v <;>
        simp [Tracer.mark, Tracer.mark_ctx, JS_MarkValue, hv]

/-- C1 witness: a ref-counted value with context pointer 4 and native
pointer 6, runtime handle 3 — the context report precedes the value
report. -/
theorem mark_reports_ctx_then_value_iff_refcounted_witness :
    Tracer.mark ⟨3, some ()⟩ ⟨⟨4⟩, 6, true⟩ = some [⟨3, 4⟩, ⟨3, 6⟩] :=
  mark_reports_ctx_then_value_iff_refcounted ⟨3, some ()⟩ ⟨⟨4⟩, 6, true⟩ rfl

/-- C2: for each built-in managed value kind that is itself the reportable
unit (`Object`, `Array`, `Function`, `BigInt`, `Symbol`, `Exception` and the
managed `crate::String`), a single `trace` call performs exactly one report:
the value itself converted to the generic `Value` view, and nothing else. -/
theorem base_kinds_trace_report_self_once :
    (∀ x : Object, x.trace = [TraceOp.markValue x.as_value]) ∧
    (∀ x : Array, x.trace = [TraceOp.markValue x.as_value]) ∧
    (∀ x : Function, x.trace = [TraceOp.markValue x.as_value]) ∧
    (∀ x : BigInt, x.trace = [TraceOp.markValue x.as_value]) ∧
    (∀ x : Symbol, x.trace = [TraceOp.markValue x.as_value]) ∧
    (∀ x : Exception, x.trace = [TraceOp.markValue x.as_value]) ∧
    (∀ x : JSString, x.trace = [TraceOp.markValue x.as_value]) :=
  ⟨fun _ => rfl, fun _ => rfl, fun _ => rfl, fun _ => rfl, fun _ => rfl,
    fun _ => rfl, fun _ => rfl⟩

/-- C3: a sequence container (the `list` arm, shared by `Vec`, `VecDeque`,
`LinkedList`, `HashSet`, `BTreeSet`, `IndexSet`) whose elements are all of
forwarding kind — each element's trace reports exactly the element itself as
a managed value — reports exactly `n` values for `n` elements, the `i`-th
report corresponding to the `i`-th element in the container's iteration
order. -/
theorem seq_trace_reports_each_element (T : Type) (f : T → List TraceOp)
    (g : T → Value) (h : ∀ x, f x = [TraceOp.markValue (g x)]) (xs : List T) :
    trace_impl_list f xs = xs.map (fun x => TraceOp.markValue (g x)) ∧
    (trace_impl_list f xs).length = xs.length := by
  have h1 : trace_impl_list f xs = xs.map fun x => TraceOp.markValue (g x) := by
    induction xs with
    | nil => rfl
    | cons x xs ih => simp [trace_impl_list, h x, ih]
  exact ⟨h1, by simp [h1]⟩

/-- C3 witness: a container of two `Object` elements yields exactly their
two values, in iteration order. -/
theorem seq_trace_reports_each_element_witness :
    trace_impl_list Object.trace [⟨⟨⟨1⟩, 2, true⟩⟩, ⟨⟨⟨1⟩, 3, true⟩⟩] =
      [TraceOp.markValue ⟨⟨1⟩, 2, true⟩, TraceOp.markValue ⟨⟨1⟩, 3, true⟩] ∧
    (trace_impl_list Object.trace [⟨⟨⟨1⟩, 2, true⟩⟩, ⟨⟨⟨1⟩, 3, true⟩⟩]).length = 2 :=
  seq_trace_reports_each_element Object Object.trace Object.as_value
    (fun _ => rfl) [⟨⟨⟨1⟩, 2, true⟩⟩, ⟨⟨⟨1⟩, 3, true⟩⟩]

/-- C4 counterexample: a map with one entry whose key is a leaf kind (`u32`,
which is traceable with a no-op trace) and whose value is an `Object`
reports 1 value, not 2·1 as the claim requires for every map with traceable
keys and values. -/
theorem map_trace_leaf_key_not_two_reports :
    (trace_impl_map trace_impl_primitive Object.trace
      [((1 : Nat), ⟨⟨⟨2⟩, 3, true⟩⟩)]).length ≠ 2 * 1 := by
  decide

/-- C4 (amended): an associative container (the `map` arm, shared by
`HashMap`, `BTreeMap`, `IndexMap`) whose keys and values are all of
forwarding kind (each reporting exactly one value) reports exactly 2·n
values for n entries, every entry's key report immediately followed by that
entry's value report, in entry iteration order. -/
theorem map_trace_two_reports_per_forwarding_entry (K V : Type)
    (fk : K → List TraceOp) (fv : V → List TraceOp)
    (gk : K → Value) (gv : V → Value)
    (hk : ∀ k, fk k = [TraceOp.markValue (gk k)])
    (hv : ∀ v, fv v = [TraceOp.markValue (gv v)]) (m : List (K × V)) :
    trace_impl_map fk fv m =
      (m.map fun e => [TraceOp.markValue (gk e.1), TraceOp.markValue (gv e.2)]).flatten ∧
    (trace_impl_map fk fv m).length = 2 * m.length := by
  have h1 : trace_impl_map fk fv m =
      (m.map fun e => [TraceOp.markValue (gk e.1), TraceOp.markValue (gv e.2)]).flatten := by
    induction m with
    | nil => rfl
    | cons e rest ih =>
        obtain ⟨k, v⟩ := e
        simp [trace_impl_map, hk k, hv v, ih]
  refine ⟨h1, ?_⟩
  rw [h1]
  clear h1
  induction m with
  | nil => rfl
  | cons e rest ih =>
      simp only [List.map_cons, List.flatten_cons, List.length_append,
        List.length_cons, List.length_nil] at ih ⊢
      omega

/-- C4 witness: one entry with an `Object` key and a `Function` value yields
the key's value report immediately followed by the value's, 2·1 reports. -/
theorem map_trace_two_reports_per_forwarding_entry_witness :
    trace_impl_map Object.trace Function.trace
      [(⟨⟨⟨1⟩, 2, true⟩⟩, ⟨⟨⟨1⟩, 3, true⟩⟩)] =
      [TraceOp.markValue ⟨⟨1⟩, 2, true⟩, TraceOp.markValue ⟨⟨1⟩, 3, true⟩] ∧
    (trace_impl_map Object.trace Function.trace
      [(⟨⟨⟨1⟩, 2, true⟩⟩, ⟨⟨⟨1⟩, 3, true⟩⟩)]).length = 2 * 1 :=
  map_trace_two_reports_per_forwarding_entry Object Function
    Object.trace Function.trace Object.as_value Function.as_value
    (fun _ => rfl) (fun _ => rfl) [(⟨⟨⟨1⟩, 2, true⟩⟩, ⟨⟨⟨1⟩, 3, true⟩⟩)]

/-- C5: for every tuple arity 0 through 16, `trace` traces each component
exactly once, in declared left-to-right order, unconditionally; in
particular the empty tuple's trace reports nothing. -/
theorem tuple_trace_each_component_once_in_order :
    (trace_tup0 () = List.flatten []) ∧
    (∀ (A : Type) (fA : A → List TraceOp) (a : A),
      trace_tup1 fA a = List.flatten [fA a]) ∧
    (∀ (A B : Type) (fA : A → List TraceOp) (fB : B → List TraceOp) (a : A) (b : B),
      trace_tup2 fA fB (a, b) = List.flatten [fA a, fB b]) ∧
    (∀ (A B C : Type) (fA : A → List TraceOp) (fB : B → List TraceOp)
      (fC : C → List TraceOp) (a : A) (b : B) (c : C),
      trace_tup3 fA fB fC (a, b, c) = List.flatten [fA a, fB b, fC c]) ∧
    (∀ (A B C D : Type) (fA : A → List TraceOp) (fB : B → List TraceOp)
      (fC : C → List TraceOp) (fD : D → List TraceOp) (a : A) (b : B) (c : C) (d : D),
      trace_tup4 fA fB fC fD (a, b, c, d) = List.flatten [fA a, fB b, fC c, fD d]) ∧
    (∀ (A B C D E : Type) (fA : A → List TraceOp) (fB : B → List TraceOp)
      (fC : C → List TraceOp) (fD : D → List TraceOp) (fE : E → List TraceOp)
      (a : A) (b : B) (c : C) (d : D) (e : E),
      trace_tup5 fA fB fC fD fE (a, b, c, d, e) =
        List.flatten [fA a, fB b, fC c, fD d, fE e]) ∧
    (∀ (A B C D E F : Type) (fA : A → List TraceOp) (fB : B → List TraceOp)
      (fC : C → List TraceOp) (fD : D → List TraceOp) (fE : E → List TraceOp)
      (fF : F → List TraceOp) (a : A) (b : B) (c : C) (d : D) (e : E) (f : F),
      trace_tup6 fA fB fC fD fE fF (a, b, c, d, e, f) =
        List.flatten [fA a, fB b, fC c, fD d, fE e, fF f]) ∧
    (∀ (A B C D E F G : Type) (fA : A → List TraceOp) (fB : B → List TraceOp)
      (fC : C → List TraceOp) (fD : D → List TraceOp) (fE : E → List TraceOp)
      (fF : F → List TraceOp) (fG : G → List TraceOp)
      (a : A) (b : B) (c : C) (d : D) (e : E) (f : F) (g : G),
      trace_tup7 fA fB fC fD fE fF fG (a, b, c, d, e, f, g) =
        List.flatten [fA a, fB b, fC c, fD d, fE e, fF f, fG g]) ∧
    (∀ (A B C D E F G H : Type) (fA : A → List TraceOp) (fB : B → List TraceOp)
      (fC : C → List TraceOp) (fD : D → List TraceOp) (fE : E → List TraceOp)
      (fF : F → List TraceOp) (fG : G → List TraceOp) (fH : H → List TraceOp)
      (a : A) (b : B) (c : C) (d : D) (e : E) (f : F) (g : G) (h : H),
      trace_tup8 fA fB fC fD fE fF fG fH (a, b, c, d, e, f, g, h) =
        List.flatten [fA a, fB b, fC c, fD d, fE e, fF f, fG g, fH h]) ∧
    (∀ (A B C D E F G H I : Type) (fA : A → List TraceOp) (fB : B → List TraceOp)
      (fC : C → List TraceOp) (fD : D → List TraceOp) (fE : E → List TraceOp)
      (fF : F → List TraceOp) (fG : G → List TraceOp) (fH : H → List TraceOp)
      (fI : I → List TraceOp)
      (a : A) (b : B) (c : C) (d : D) (e : E) (f : F) (g : G) (h : H) (i : I),
      trace_tup9 fA fB fC fD fE fF fG fH fI (a, b, c, d, e, f, g, h, i) =
        List.flatten [fA a, fB b, fC c, fD d, fE e, fF f, fG g, fH h, fI i]) ∧
    (∀ (A B C D E F G H I J : Type) (fA : A → List TraceOp) (fB : B → List TraceOp)
      (fC : C → List TraceOp) (fD : D → List TraceOp) (fE : E → List TraceOp)
      (fF : F → List TraceOp) (fG : G → List TraceOp) (fH : H → List TraceOp)
      (fI : I → List TraceOp) (fJ : J → List TraceOp)
      (a : A) (b : B) (c : C) (d : D) (e : E) (f : F) (g : G) (h : H) (i : I) (j : J),
      trace_tup10 fA fB fC fD fE fF fG fH fI fJ (a, b, c, d, e, f, g, h, i, j) =
        List.flatten [fA a, fB b, fC c, fD d, fE e, fF f, fG g, fH h, fI i, fJ j]) ∧
    (∀ (A B C D E F G H I J K : Type) (fA : A → List TraceOp) (fB : B → List TraceOp)
      (fC : C → List TraceOp) (fD : D → List TraceOp) (fE : E → List TraceOp)
      (fF : F → List TraceOp) (fG : G → List TraceOp) (fH : H → List TraceOp)
      (fI : I → List TraceOp) (fJ : J → List TraceOp) (fK : K → List TraceOp)
      (a : A) (b : B) (c : C) (d : D) (e : E) (f : F) (g : G) (h : H) (i : I)
      (j : J) (k : K),
      trace_tup11 fA fB fC fD fE fF fG fH fI fJ fK (a, b, c, d, e, f, g, h, i, j, k) =
        List.flatten [fA a, fB b, fC c, fD d, fE e, fF f, fG g, fH h, fI i,
          fJ j, fK k]) ∧
    (∀ (A B C D E F G H I J K L : Type) (fA : A → List TraceOp) (fB : B → List TraceOp)
      (fC : C → List TraceOp) (fD : D → List TraceOp) (fE : E → List TraceOp)
      (fF : F → List TraceOp) (fG : G → List TraceOp) (fH : H → List TraceOp)
      (fI : I → List TraceOp) (fJ : J → List TraceOp) (fK : K → List TraceOp)
      (fL : L → List TraceOp)
      (a : A) (b : B) (c : C) (d : D) (e : E) (f : F) (g : G) (h : H) (i : I)
      (j : J) (k : K) (l : L),
      trace_tup12 fA fB fC fD fE fF fG fH fI fJ fK fL
          (a, b, c, d, e, f, g, h, i, j, k, l) =
        List.flatten [fA a, fB b, fC c, fD d, fE e, fF f, fG g, fH h, fI i,
          fJ j, fK k, fL l]) ∧
    (∀ (A B C D E F G H I J K L M : Type) (fA : A → List TraceOp)
      (fB : B → List TraceOp) (fC : C → List TraceOp) (fD : D → List TraceOp)
      (fE : E → List TraceOp) (fF : F → List TraceOp) (fG : G → List TraceOp)
      (fH : H → List TraceOp) (fI : I → List TraceOp) (fJ : J → List TraceOp)
      (fK : K → List TraceOp) (fL : L → List TraceOp) (fM : M → List TraceOp)
      (a : A) (b : B) (c : C) (d : D) (e : E) (f : F) (g : G) (h : H) (i : I)
      (j : J) (k : K) (l : L) (m : M),
      trace_tup13 fA fB fC fD fE fF fG fH fI fJ fK fL fM
          (a, b, c, d, e, f, g, h, i, j, k, l, m) =
        List.flatten [fA a, fB b, fC c, fD d, fE e, fF f, fG g, fH h, fI i,
          fJ j, fK k, fL l, fM m]) ∧
    (∀ (A B C D E F G H I J K L M N : Type) (fA : A → List TraceOp)
      (fB : B → List TraceOp) (fC : C → List TraceOp) (fD : D → List TraceOp)
      (fE : E → List TraceOp) (fF : F → List TraceOp) (fG : G → List TraceOp)
      (fH : H → List TraceOp) (fI : I → List TraceOp) (fJ : J → List TraceOp)
      (fK : K → List TraceOp) (fL : L → List TraceOp) (fM : M → List TraceOp)
      (fN : N → List TraceOp)
      (a : A) (b : B) (c : C) (d : D) (e : E) (f : F) (g : G) (h : H) (i : I)
      (j : J) (k : K) (l : L) (m : M) (n : N),
      trace_tup14 fA fB fC fD fE fF fG fH fI fJ fK fL fM fN
          (a, b, c, d, e, f, g, h, i, j, k, l, m, n) =
        List.flatten [fA a, fB b, fC c, fD d, fE e, fF f, fG g, fH h, fI i,
          fJ j, fK k, fL l, fM m, fN n]) ∧
    (∀ (A B C D E F G H I J K L M N O : Type) (fA : A → List TraceOp)
      (fB : B → List TraceOp) (fC : C → List TraceOp) (fD : D → List TraceOp)
      (fE : E → List TraceOp) (fF : F → List TraceOp) (fG : G → List TraceOp)
      (fH : H → List TraceOp) (fI : I → List TraceOp) (fJ : J → List TraceOp)
      (fK : K → List TraceOp) (fL : L → List TraceOp) (fM : M → List TraceOp)
      (fN : N → List TraceOp) (fO : O → List TraceOp)
      (a : A) (b : B) (c : C) (d : D) (e : E) (f : F) (g : G) (h : H) (i : I)
      (j : J) (k : K) (l : L) (m : M) (n : N) (o : O),
      trace_tup15 fA fB fC fD fE fF fG fH fI fJ fK fL fM fN fO
          (a, b, c, d, e, f, g, h, i, j, k, l, m, n, o) =
        List.flatten [fA a, fB b, fC c, fD d, fE e, fF f, fG g, fH h, fI i,
          fJ j, fK k, fL l, fM m, fN n, fO o]) ∧
    (∀ (A B C D E F G H I J K L M N O P : Type) (fA : A → List TraceOp)
      (fB : B → List TraceOp) (fC : C → List TraceOp) (fD : D → List TraceOp)
      (fE : E → List TraceOp) (fF : F → List TraceOp) (fG : G → List TraceOp)
      (fH : H → List TraceOp) (fI : I → List TraceOp) (fJ : J → List TraceOp)
      (fK : K → List TraceOp) (fL : L → List TraceOp) (fM : M → List TraceOp)
      (fN : N → List TraceOp) (fO : O → List TraceOp) (fP : P → List TraceOp)
      (a : A) (b : B) (c : C) (d : D) (e : E) (f : F) (g : G) (h : H) (i : I)
      (j : J) (k : K) (l : L) (m : M) (n : N) (o : O) (p : P),
      trace_tup16 fA fB fC fD fE fF fG fH fI fJ fK fL fM fN fO fP
          (a, b, c, d, e, f, g, h, i, j, k, l, m, n, o, p) =
        List.flatten [fA a, fB b, fC c, fD d, fE e, fF f, fG g, fH h, fI i,
          fJ j, fK k, fL l, fM m, fN n, fO o, fP p]) := by
  refine ⟨rfl, ?_, ?_, ?_, ?_, ?_, ?_, ?_, ?_, ?_, ?_, ?_, ?_, ?_, ?_, ?_, ?_⟩ <;>
    · intros
      simp [trace_tup1, trace_tup2, trace_tup3, trace_tup4, trace_tup5,
        trace_tup6, trace_tup7, trace_tup8, trace_tup9, trace_tup10,
        trace_tup11, trace_tup12, trace_tup13, trace_tup14, trace_tup15,
        trace_tup16]

/-- C6: the smart-pointer wrappers (`Box`, `Rc`, `Arc`) are transparent to
tracing — `trace` on the wrapped value produces exactly the sequence of
reports of `trace` on the unwrapped inner value. -/
theorem smart_pointer_trace_transparent :
    (∀ (T : Type) (f : T → List TraceOp) (x : Box T), Box.trace f x = f x.inner) ∧
    (∀ (T : Type) (f : T → List TraceOp) (x : Rc T), Rc.trace f x = f x.inner) ∧
    (∀ (T : Type) (f : T → List TraceOp) (x : Arc T), Arc.trace f x = f x.inner) :=
  ⟨fun _ _ _ => rfl, fun _ _ _ => rfl, fun _ _ _ => rfl⟩

/-- C7: every leaf kind (the `primitive` arm, shared by the fixed-width
integers, floats, `bool`, `char`, Rust `String`, `Atom` and `Module`)
reports zero references on any input: its trace performs no visitor
operation, so the callback is never invoked — not even on a tracer with no
callback at all. -/
theorem leaf_trace_reports_nothing (T : Type) (x : T) (t : Tracer) :
    trace_impl_primitive x = [] ∧ t.runOps (trace_impl_primitive x) = some [] :=
  ⟨rfl, rfl⟩

/-- C8: either reporting operation aborts exactly when the bound callback is
absent — a visitor built with no callback aborts on `mark_ctx` and on
`mark`, and with a callback present neither operation aborts. -/
theorem reporting_aborts_iff_callback_absent (t : Tracer) (c : Ctx) (v : Value) :
    (t.mark_ctx c = none ↔ t.mark_func = none) ∧
    (t.mark v = none ↔ t.mark_func = none) := by
  obtain ⟨rt, mf⟩ := t
  cases mf <;> cases hv : JS_VALUE_HAS_REF_COUNT v <;>
    simp [Tracer.mark, Tracer.mark_ctx, hv]

/-- C9: nesting composes — a sequence container of pairs of smart-pointer
wrapped managed values (container / tuple / wrapper, more than 2 levels)
reports exactly one value per leaf managed reference, in order, with no leaf
reported twice and none omitted: 2 reports per element, 2·n in total. -/
theorem nested_container_tuple_ref_trace (xs : List (Box Object × Rc Function)) :
    trace_impl_list (trace_tup2 (Box.trace Object.trace) (Rc.trace Function.trace)) xs =
      (xs.map fun p => [TraceOp.markValue p.1.inner.as_value,
        TraceOp.markValue p.2.inner.as_value]).flatten ∧
    (trace_impl_list (trace_tup2 (Box.trace Object.trace)
      (Rc.trace Function.trace)) xs).length = 2 * xs.length := by
  have h1 : trace_impl_list (trace_tup2 (Box.trace Object.trace)
      (Rc.trace Function.trace)) xs =
      (xs.map fun p => [TraceOp.markValue p.1.inner.as_value,
        TraceOp.markValue p.2.inner.as_value]).flatten := by
    induction xs with
    | nil => rfl
    | cons p ps ih =>
        obtain ⟨b, r⟩ := p
        simp [trace_impl_list, trace_tup2, Box.trace, Rc.trace, Object.trace,
          Function.trace, Value.trace, ih]
  refine ⟨h1, ?_⟩
  rw [h1]
  clear h1
  induction xs with
  | nil => rfl
  | cons p ps ih =>
      simp only [List.map_cons, List.flatten_cons, List.length_append,
        List.length_cons, List.length_nil] at ih ⊢
      omega

/-- C10: `Tracer::mark` first invokes the bound callback with the value's
execution-context pointer and only afterwards checks the ref-counted flag:
a non-ref-counted value yields exactly one callback invocation (the context
report) and a ref-counted value exactly two, the context report strictly
before the value report. -/
theorem mark_ctx_report_precedes_value_report (t : Tracer) (v : Value)
    (h : t.mark_func.isSome = true) :
    (v.has_ref_count = false → t.mark v = some [⟨t.rt, v.ctx.ptr⟩]) ∧
    (v.has_ref_count = true →
      t.mark v = some [⟨t.rt, v.ctx.ptr⟩, ⟨t.rt, v.ptr⟩]) := by
  obtain ⟨rt, mf⟩ := t
  cases mf with
  | none => simp at h
  | some u =>
      constructor <;> intro hv <;>
        simp [Tracer.mark, Tracer.mark_ctx, JS_MarkValue, JS_VALUE_HAS_REF_COUNT, hv]

/-- C10 witness: a non-ref-counted value with context pointer 12 yields
exactly the one context report `(11, 12)`. -/
theorem mark_ctx_report_precedes_value_report_witness :
    Tracer.mark ⟨11, some ()⟩ ⟨⟨12⟩, 13, false⟩ = some [⟨11, 12⟩] :=
  (mark_ctx_report_precedes_value_report ⟨11, some ()⟩ ⟨⟨12⟩, 13, false⟩ rfl).1 rfl

end RQ
